import Mathlib

/-!
Shallow embedding of the ai_server_flask video-pipeline server.

Sources embedded:
- src/app/config/config.py          (default configuration values)
- src/app/utils/detection_storage.py (DetectionStorage: dedup gate, Firebase relay,
                                      snapshot and YOLO-label persistence)
- src/app/utils/video_stream.py      (VideoStream: producer loop, latest-frame cell)
- src/app/utils/yolo_detector.py     (YOLODetector: detect_and_track, track history)
- src/app/__init__.py                (Flask app: lifecycle routes, MJPEG generator)

External collaborators (cv2, numpy, Firebase, the YOLO model, the filesystem and
wall-clock time) are modeled as oracles or as explicit effect records: a fallible
external call is represented by a Bool oracle saying whether it succeeds, and the
calls a function makes are collected in a list of Effect values.
-/

/-! ## Configuration defaults (src/app/config/config.py)

Each value is the os.getenv default from config.py. -/

def FRAME_WIDTH : Nat := 640

def FRAME_HEIGHT : Nat := 480

def FPS : Nat := 30

def DEFAULT_STREAM_SOURCE : String := "0"

def SAVE_DETECTIONS : Bool := true

/-! ## Frames

A numpy image array: height, width, channel count, pixel data (uint8 values),
plus the list of overlays drawn onto it by cv2 (rectangles, labels, trails),
recorded symbolically since cv2 rendering is an external collaborator. -/

structure Frame where
  height : Nat
  width : Nat
  channels : Nat
  data : Nat → Nat → Nat → Nat
  overlays : List String

/-- numpy ndarray.copy(): a fresh buffer holding an equal value. -/
def frameCopy (f : Frame) : Frame := f

/-! ## Detections (as produced by YOLODetector.detect_and_track) -/

structure BBox where
  x1 : Int
  y1 : Int
  x2 : Int
  y2 : Int
deriving DecidableEq

structure Detection where
  cls : String
  confidence : Rat
  bbox : BBox
  trackId : Int
  timestamp : Rat
  count : Option Nat
deriving DecidableEq

/-- Python `int(x)` on a nonnegative float: truncation toward zero. -/
def ratTrunc (q : Rat) : Int := Int.tdiv q.num q.den

/-- Python str.lower, mapped over the characters. -/
def stringToLower (s : String) : String := ⟨s.data.map Char.toLower⟩

/-! ## DetectionStorage (src/app/utils/detection_storage.py)

The seen-object set is a list of id strings (insertion models set.add).
External side effects are recorded as Effect values; the Oracle says whether
each fallible external call (Firebase transaction, cv2.imwrite, label file
write) succeeds, so that the exception paths of the source are represented. -/

inductive Effect where
  | relay (wasteType : String) (count : Nat)
  | warnUnknown (wasteType : String)
  | logMsg (msg : String)
  | imageWrite (filename : String)
  | labelWrite (filename : String) (classId : Nat) (xc yc bw bh : Rat)
deriving DecidableEq

structure Oracle where
  relayOk : Bool
  imageOk : Bool
  labelOk : Bool

def oracleOk : Oracle := ⟨true, true, true⟩

def oracleFail : Oracle := ⟨false, false, false⟩

/-- `object_id = f"{detection['class']}_{detection['track_id']}"` (line 85). -/
def objectId (d : Detection) : String :=
  d.cls ++ "_" ++ toString d.trackId

/-- Waste type: `detection.get('class', '').lower()` (line 117). -/
def wasteType (d : Detection) : String := stringToLower d.cls

/-- The classes forwarded to the aggregate counter (line 118). -/
def recognizedWasteTypes : List String := ["metal", "glass", "plastic"]

/-- DetectionStorage.store_to_firebase (lines 105-133). `dbInit` is whether
initialize_firebase succeeded (db_ref is not None); the unknown-class branch
warns and returns; the transaction is attempted for recognized classes and a
failure is caught and logged (the except branch). -/
def store_to_firebase (dbInit : Bool) (o : Oracle) (d : Detection) : List Effect :=
  if dbInit = false then
    [Effect.logMsg "Firebase not initialized, skipping data storage"]
  else if recognizedWasteTypes.contains (wasteType d) = false then
    [Effect.warnUnknown (wasteType d)]
  else
    Effect.relay (wasteType d) (d.count.getD 1) ::
      (if o.relayOk then [] else [Effect.logMsg "Error updating wasteTypes in Firebase"])

/-- Snapshot filename `f"{timestamp}_{class}_{track_id}.jpg"` (line 146). -/
def imgFilename (d : Detection) : String :=
  toString (ratTrunc d.timestamp) ++ "_" ++ d.cls ++ "_" ++ toString d.trackId ++ ".jpg"

/-- Label filename `f"{timestamp}_{class}_{track_id}.txt"` (line 187). -/
def lblFilename (d : Detection) : String :=
  toString (ratTrunc d.timestamp) ++ "_" ++ d.cls ++ "_" ++ toString d.trackId ++ ".txt"

/-- DetectionStorage.save_detection_image (lines 135-153): one cv2.imwrite call;
a failure is caught and logged. -/
def save_detection_image (o : Oracle) (d : Detection) : List Effect :=
  Effect.imageWrite (imgFilename d) ::
    (if o.imageOk then [] else [Effect.logMsg "Error saving detection image"])

/-- DetectionStorage.save_detection_label (lines 155-196): computes the YOLO
normalized bbox form and writes one label file, class_id fixed at 0; a failure
is caught and logged. -/
def save_detection_label (o : Oracle) (d : Detection) (frame : Frame) : List Effect :=
  let w : Rat := frame.width
  let h : Rat := frame.height
  let x_center := ((d.bbox.x1 + d.bbox.x2 : Rat) / 2) / w
  let y_center := ((d.bbox.y1 + d.bbox.y2 : Rat) / 2) / h
  let bbox_width := (d.bbox.x2 - d.bbox.x1 : Rat) / w
  let bbox_height := (d.bbox.y2 - d.bbox.y1 : Rat) / h
  Effect.labelWrite (lblFilename d) 0 x_center y_center bbox_width bbox_height ::
    (if o.labelOk then [] else [Effect.logMsg "Error saving detection label"])

structure StoreResult where
  isNew : Bool
  seen : List String
  effects : List Effect

/-- DetectionStorage.store_detection (lines 73-103). `save` is the
SAVE_DETECTIONS config flag, `dbInit` whether Firebase initialized. Novelty is
membership of the object id in the seen set; the Firebase relay happens on
every call before the novelty branch; image and label writes plus the seen-set
update happen only when the detection is new and saving is enabled. -/
def store_detection (save dbInit : Bool) (o : Oracle) (seen : List String)
    (d : Detection) (frame : Frame) : StoreResult :=
  let oid := objectId d
  let is_new : Bool := !(decide (oid ∈ seen))
  let fbEff := store_to_firebase dbInit o d
  if is_new && save then
    ⟨is_new, oid :: seen,
      fbEff ++ save_detection_image o d ++ save_detection_label o d frame⟩
  else
    ⟨is_new, seen, fbEff⟩

/-- A sequence of store_detection calls (one per processed detection), each
with its own oracle, threading the seen set; returns each call's
(is_new, effects) pair in order. -/
def runCalls (save dbInit : Bool) (frame : Frame) :
    List String → List (Detection × Oracle) → List (Bool × List Effect)
  | _, [] => []
  | seen, c :: rest =>
    let r := store_detection save dbInit c.2 seen c.1 frame
    (r.isNew, r.effects) :: runCalls save dbInit frame r.seen rest

def isImageWrite : Effect → Bool
  | Effect.imageWrite _ => true
  | _ => false

def isLabelWrite : Effect → Bool
  | Effect.labelWrite _ _ _ _ _ _ => true
  | _ => false

/-- Number of snapshot (image) writes among the recorded effects. -/
def countImg (l : List Effect) : Nat := (l.filter isImageWrite).length

/-- Number of label-file writes among the recorded effects. -/
def countLbl (l : List Effect) : Nat := (l.filter isLabelWrite).length

/-! ## VideoStream (src/app/utils/video_stream.py)

The producer state. `streamOpened` models `self.stream`: none before any
cv2.VideoCapture was constructed, `some b` for a capture whose isOpened() is
`b`. `threadStarted` models whether the `_update` producer thread was launched
(threading.Thread(...).start() on line 63). The lock is modeled by treating
each locked block as one atomic state transition. -/

structure VSState where
  source : String ⊕ Int
  streamOpened : Option Bool
  frame : Option Frame
  stopped : Bool
  fps : Nat
  lastFrameTime : Rat
  frameCount : Nat
  actualFps : Rat
  threadStarted : Bool

/-- VideoStream.__init__ (lines 23-38). Note `stopped` starts out false. -/
def vsInit (source : String ⊕ Int) : VSState :=
  ⟨source, none, none, false, FPS, 0, 0, 0, false⟩

/-- Digit-string sources are converted to camera indices (lines 48-49). -/
def sourceToCameraIndex : String ⊕ Int → String ⊕ Int
  | Sum.inl s => if s.isNat then Sum.inr ((s.toNat?).getD 0 : Int) else Sum.inl s
  | Sum.inr n => Sum.inr n

/-- VideoStream.start (lines 40-64). `openOk` is whether the constructed
capture reports isOpened(). On failure a ValueError propagates (modeled as
Except.error carrying the message and the object state at the raise, the
capture assigned but the thread not started); on success the stopped flag is
cleared and the producer thread is started. -/
def vsStart (openOk : Bool) (s : VSState) : Except (String × VSState) VSState :=
  let s1 := { s with source := sourceToCameraIndex s.source, streamOpened := some openOk }
  if openOk then
    Except.ok { s1 with stopped := false, threadStarted := true }
  else
    Except.error ("Could not open video source", s1)

/-- VideoStream.stop (lines 113-119): set the stop flag and release the
capture if one exists. -/
def vsStop (s : VSState) : VSState :=
  { s with stopped := true, streamOpened := s.streamOpened.map (fun _ => false) }

/-- The locked frame-publication block of VideoStream._update (lines 91-94):
`self.frame = frame; self.last_frame_time = current_time` under the lock. -/
def vsPublishFrame (s : VSState) (f : Frame) (t : Rat) : VSState :=
  { s with frame := some f, lastFrameTime := t }

/-- VideoStream.read (lines 101-111): under the lock, none if no frame was
ever published, else a defensive copy of the current frame. -/
def vsRead (s : VSState) : Option Frame :=
  match s.frame with
  | none => none
  | some f => some (frameCopy f)

/-- VideoStream.change_source (lines 130-152): stop, swap the source, restart;
an open failure is caught and reported as false. -/
def vsChangeSource (openOk : Bool) (newSource : String ⊕ Int) (s : VSState) : Bool × VSState :=
  let s1 := { vsStop s with source := newSource }
  match vsStart openOk s1 with
  | Except.ok v => (true, v)
  | Except.error e => (false, e.2)

/-- The VideoStream._update producer loop (lines 66-99). Each list element is
one `self.stream.read()` outcome paired with the wall-clock time of that
iteration: none for a failed read (ret false), `some f` for a captured frame.
`lastCalc` is the local last_fps_calc_time. A failed read logs, sets the stop
flag and breaks; a successful read updates the rolling FPS estimate once per
elapsed second and publishes the frame. The rate-control sleep only consumes
wall-clock time, so it has no state effect here. -/
def vsUpdate (s : VSState) (lastCalc : Rat) :
    List (Option Frame × Rat) → VSState × Rat
  | [] => (s, lastCalc)
  | (r, t) :: rest =>
    if s.stopped then (s, lastCalc)
    else
      match r with
      | none => ({ s with stopped := true }, lastCalc)
      | some f =>
        let s1 := { s with frameCount := s.frameCount + 1 }
        if 1 ≤ t - lastCalc then
          let s2 := { s1 with actualFps := (s1.frameCount : Rat) / (t - lastCalc),
                              frameCount := 0 }
          vsUpdate (vsPublishFrame s2 f t) t rest
        else
          vsUpdate (vsPublishFrame s1 f t) lastCalc rest

/-! ## YOLODetector (src/app/utils/yolo_detector.py) -/

/-- A center point of a tracked box, as stored in track_history. -/
abbrev Point := Int × Int

/-- One raw box row of a tracked result: xyxy ints, class id, confidence,
track id. -/
structure RawDet where
  x1 : Int
  y1 : Int
  x2 : Int
  y2 : Int
  clsId : Nat
  conf : Rat
  trackId : Int

/-- One raw box row of an untracked (fallback) result: no track id. -/
structure PlainDet where
  x1 : Int
  y1 : Int
  x2 : Int
  y2 : Int
  clsId : Nat
  conf : Rat

/-- What `self.model.track(...)` yields for a frame: boxes with tracking ids
(result.boxes.id is not None) or plain boxes (fallback branch, line 134). -/
inductive ModelOutput where
  | tracked (dets : List RawDet)
  | plain (dets : List PlainDet)

/-- `center = (int((x1 + x2) / 2), int((y1 + y2) / 2))` (line 120); Python
int() truncates toward zero. -/
def rawCenter (r : RawDet) : Point :=
  (Int.tdiv (r.x1 + r.x2) 2, Int.tdiv (r.y1 + r.y2) 2)

/-- The per-track history update of detect_and_track (lines 115-125): append
the center, then pop the oldest point if the length exceeded 30. -/
def histStep (l : List Point) (c : Point) : List Point :=
  let l2 := l ++ [c]
  if 30 < l2.length then l2.drop 1 else l2

/-- track_history: a dict from track id to center points, empty-by-default
(the `if track_id not in self.track_history` initialization, lines 116-117). -/
abbrev TrackHist := Int → List Point

def emptyHist : TrackHist := fun _ => []

/-- One detection's effect on track_history (lines 115-125). -/
def histUpdate (h : TrackHist) (r : RawDet) : TrackHist :=
  fun t => if t = r.trackId then histStep (h r.trackId) (rawCenter r) else h t

/-- The detection dict built for a tracked box (lines 97-103). `now` is the
time.time() value of this frame. -/
def mkDetection (names : Nat → String) (now : Rat) (r : RawDet) : Detection :=
  ⟨names r.clsId, r.conf, ⟨r.x1, r.y1, r.x2, r.y2⟩, r.trackId, now, none⟩

/-- The detection dict built for an untracked box (lines 146-152): the
enumerate index substitutes for the track id. -/
def mkDetectionPlain (names : Nat → String) (now : Rat) (ip : Nat × PlainDet) : Detection :=
  ⟨names ip.2.clsId, ip.2.conf, ⟨ip.2.x1, ip.2.y1, ip.2.x2, ip.2.y2⟩,
    (ip.1 : Int), now, none⟩

/-- The cv2 rectangle/label drawing for one tracked box (lines 106-113),
recorded as an overlay on the frame copy. -/
def drawTracked (names : Nat → String) (f : Frame) (r : RawDet) : Frame :=
  { f with overlays := f.overlays ++ [names r.clsId ++ " ID:" ++ toString r.trackId] }

/-- The cv2 rectangle/label drawing for one untracked box (lines 155-162). -/
def drawPlain (names : Nat → String) (f : Frame) (ip : Nat × PlainDet) : Frame :=
  { f with overlays := f.overlays ++ [names ip.2.clsId] }

/-- YOLODetector.__init__ model loading (lines 36-48): the primary model if it
loads, else the fallback model if that loads, else none. -/
def yoloInitModel (primary fallback : Option (Frame → ModelOutput)) :
    Option (Frame → ModelOutput) :=
  match primary with
  | some m => some m
  | none => fallback

/-- YOLODetector.detect_and_track (lines 54-164). With no loaded model the
frame passes through with no detections (lines 66-67). Otherwise the raw model
output is turned into detection dicts; tracked boxes also update
track_history and draw trails. Returns (processed frame, detections, updated
track_history). -/
def detect_and_track (model : Option (Frame → ModelOutput)) (names : Nat → String)
    (hist : TrackHist) (frame : Frame) (now : Rat) :
    Frame × List Detection × TrackHist :=
  match model with
  | none => (frame, [], hist)
  | some m =>
    match m frame with
    | ModelOutput.tracked raws =>
      let dets := raws.map (mkDetection names now)
      let processed := raws.foldl (drawTracked names) (frameCopy frame)
      let hist2 := raws.foldl histUpdate hist
      (processed, dets, hist2)
    | ModelOutput.plain raws =>
      let dets := raws.enum.map (mkDetectionPlain names now)
      let processed := raws.enum.foldl (drawPlain names) (frameCopy frame)
      (processed, dets, hist)

/-! ## Flask app (src/app/__init__.py) -/

/-- The JSON status/message pair returned by the lifecycle routes. -/
structure ApiResponse where
  status : String
  message : String
deriving DecidableEq

/-- The module-level mutable state of src/app/__init__.py. -/
structure AppState where
  streamActive : Bool
  videoStream : Option VSState
  processingThread : Bool
  processingFrame : Option Frame

/-- The blank placeholder `np.zeros((480, 640, 3), dtype=np.uint8)`
(line 124). -/
def blankFrame : Frame := ⟨480, 640, 3, fun _ _ _ => 0, []⟩

/-- One iteration of the generate_frames viewer loop (lines 119-137): the
frame that gets JPEG-encoded and yielded, which is the blank placeholder when
no processed frame has ever been published. -/
def generateFramesStep (pf : Option Frame) : Frame :=
  match pf with
  | none => blankFrame
  | some f => f

/-- start_stream route (lines 160-192). `reqSource` is the optional source in
the request body, `openOk` whether the requested capture source opens. When a
stream is already active the route returns an error without touching any
state. Otherwise a fresh VideoStream is created and started (an open failure
is caught and reported), or the existing one has its source changed with the
result ignored, and the processing thread is started. -/
def start_stream (s : AppState) (reqSource : Option String) (openOk : Bool) :
    ApiResponse × AppState :=
  if s.streamActive then (⟨"error", "Stream already active"⟩, s)
  else
    let source := reqSource.getD DEFAULT_STREAM_SOURCE
    match s.videoStream with
    | none =>
      match vsStart openOk (vsInit (Sum.inl source)) with
      | Except.ok vs =>
        (⟨"success", "Stream started"⟩,
          { s with videoStream := some vs, streamActive := true, processingThread := true })
      | Except.error e => (⟨"error", e.1⟩, s)
    | some vs =>
      let vs2 := vsChangeSource openOk (Sum.inl source) vs
      (⟨"success", "Stream started"⟩,
        { s with videoStream := some vs2.2, streamActive := true, processingThread := true })

/-- stop_stream route (lines 194-222). When no stream is active the route
returns an error without touching any state; otherwise the active flag is
cleared, the processing thread joined (a wall-clock wait), and the video
stream stopped. -/
def stop_stream (s : AppState) : ApiResponse × AppState :=
  if s.streamActive = false then (⟨"error", "No active stream to stop"⟩, s)
  else
    let s1 := { s with streamActive := false }
    let s2 :=
      match s1.videoStream with
      | none => s1
      | some vs => { s1 with videoStream := some (vsStop vs) }
    (⟨"success", "Stream stopped"⟩, s2)

/-! ## Concrete inputs used by witnesses -/

def frame640 : Frame := ⟨480, 640, 3, fun _ _ _ => 0, []⟩

/-- The spec test detection: class metal, track id 5, bbox (10,20,110,220). -/
def exDet : Detection := ⟨"metal", 9/10, ⟨10, 20, 110, 220⟩, 5, 100, none⟩

def cs40 : List Point := (List.range 40).map (fun i => ((i : Int), (0 : Int)))

def exActive : AppState := ⟨true, none, true, none⟩

def exVS : VSState := vsInit (Sum.inl "0")

def exIdle : AppState := ⟨false, none, false, none⟩

/-! ## Helper lemmas about DetectionStorage effects -/

lemma countImg_append (a b : List Effect) :
    countImg (a ++ b) = countImg a + countImg b := by
  simp [countImg, List.filter_append]

lemma countLbl_append (a b : List Effect) :
    countLbl (a ++ b) = countLbl a + countLbl b := by
  simp [countLbl, List.filter_append]

lemma countImg_fb (dbInit : Bool) (o : Oracle) (d : Detection) :
    countImg (store_to_firebase dbInit o d) = 0 := by
  unfold store_to_firebase
  split
  · simp [countImg, isImageWrite]
  · split
    · simp [countImg, isImageWrite]
    · split <;> simp [countImg, isImageWrite]

lemma countLbl_fb (dbInit : Bool) (o : Oracle) (d : Detection) :
    countLbl (store_to_firebase dbInit o d) = 0 := by
  unfold store_to_firebase
  split
  · simp [countLbl, isLabelWrite]
  · split
    · simp [countLbl, isLabelWrite]
    · split <;> simp [countLbl, isLabelWrite]

lemma countImg_img (o : Oracle) (d : Detection) :
    countImg (save_detection_image o d) = 1 := by
  unfold save_detection_image
  split <;> simp [countImg, isImageWrite]

lemma countLbl_img (o : Oracle) (d : Detection) :
    countLbl (save_detection_image o d) = 0 := by
  unfold save_detection_image
  split <;> simp [countLbl, isLabelWrite]

lemma countImg_lbl (o : Oracle) (d : Detection) (frame : Frame) :
    countImg (save_detection_label o d frame) = 0 := by
  unfold save_detection_label
  split <;> simp [countImg, isImageWrite]

lemma countLbl_lbl (o : Oracle) (d : Detection) (frame : Frame) :
    countLbl (save_detection_label o d frame) = 1 := by
  unfold save_detection_label
  split <;> simp [countLbl, isLabelWrite]

lemma store_detection_not_new (save dbInit : Bool) (o : Oracle) (seen : List String)
    (d : Detection) (frame : Frame) (h : objectId d ∈ seen) :
    store_detection save dbInit o seen d frame
      = ⟨false, seen, store_to_firebase dbInit o d⟩ := by
  simp only [store_detection, decide_eq_true h, Bool.not_true, Bool.false_and,
    Bool.false_eq_true, if_false]

lemma store_detection_new_save (dbInit : Bool) (o : Oracle) (seen : List String)
    (d : Detection) (frame : Frame) (h : objectId d ∉ seen) :
    store_detection true dbInit o seen d frame
      = ⟨true, objectId d :: seen,
          store_to_firebase dbInit o d ++ save_detection_image o d
            ++ save_detection_label o d frame⟩ := by
  simp only [store_detection, decide_eq_false h, Bool.not_false, Bool.and_self, if_true]

lemma store_seen_mono (save dbInit : Bool) (o : Oracle) (seen : List String)
    (d : Detection) (frame : Frame) (x : String) (h : x ∈ seen) :
    x ∈ (store_detection save dbInit o seen d frame).seen := by
  simp only [store_detection]
  split
  · exact List.mem_cons_of_mem _ h
  · exact h

lemma runCalls_all_false (save dbInit : Bool) (frame : Frame) (oid : String)
    (calls : List (Detection × Oracle)) :
    ∀ seen : List String, oid ∈ seen →
      ∀ p ∈ calls.zip (runCalls save dbInit frame seen calls),
        objectId p.1.1 = oid →
          p.2.1 = false ∧ countImg p.2.2 = 0 ∧ countLbl p.2.2 = 0 := by
  induction calls with
  | nil => intro seen _ p hp; simp [runCalls] at hp
  | cons c rest ih =>
    intro seen hseen p hp heq
    simp only [runCalls, List.zip_cons_cons, List.mem_cons] at hp
    rcases hp with hp | hp
    · subst hp
      simp only at heq
      have hmem : objectId c.1 ∈ seen := heq ▸ hseen
      rw [store_detection_not_new save dbInit c.2 seen c.1 frame hmem]
      exact ⟨rfl, countImg_fb dbInit c.2 c.1, countLbl_fb dbInit c.2 c.1⟩
    · exact ih (store_detection save dbInit c.2 seen c.1 frame).seen
        (store_seen_mono save dbInit c.2 seen c.1 frame oid hseen) p hp heq

lemma store_effects_cases (save dbInit : Bool) (o : Oracle) (seen : List String)
    (d : Detection) (frame : Frame) :
    (store_detection save dbInit o seen d frame).effects = store_to_firebase dbInit o d
  ∨ (store_detection save dbInit o seen d frame).effects
      = store_to_firebase dbInit o d ++ save_detection_image o d
          ++ save_detection_label o d frame := by
  simp only [store_detection]
  split
  · right; rfl
  · left; rfl

lemma relay_mem_fb (o : Oracle) (d : Detection)
    (hrec : recognizedWasteTypes.contains (wasteType d) = true) :
    Effect.relay (wasteType d) (d.count.getD 1) ∈ store_to_firebase true o d := by
  have h2 : wasteType d ∈ recognizedWasteTypes := by simpa using hrec
  simp [store_to_firebase, h2]

lemma relay_not_mem_img (o : Oracle) (d : Detection) (wt : String) (n : Nat) :
    Effect.relay wt n ∉ save_detection_image o d := by
  cases h : o.imageOk <;> simp [save_detection_image, h]

lemma relay_not_mem_lbl (o : Oracle) (d : Detection) (frame : Frame) (wt : String) (n : Nat) :
    Effect.relay wt n ∉ save_detection_label o d frame := by
  cases h : o.labelOk <;> simp [save_detection_label, h]

lemma store_result_oracle_indep (save dbInit : Bool) (o o2 : Oracle)
    (seen : List String) (d : Detection) (frame : Frame) :
    (store_detection save dbInit o2 seen d frame).isNew
      = (store_detection save dbInit o seen d frame).isNew
  ∧ (store_detection save dbInit o2 seen d frame).seen
      = (store_detection save dbInit o seen d frame).seen := by
  simp only [store_detection]
  by_cases hc : (!decide (objectId d ∈ seen) && save) = true
  · simp [hc]
  · simp [hc]

lemma runCalls_disabled_isNew (dbInit : Bool) (frame : Frame)
    (calls : List (Detection × Oracle)) :
    ∀ seen : List String, ∀ p ∈ calls.zip (runCalls false dbInit frame seen calls),
      p.2.1 = !(decide (objectId p.1.1 ∈ seen)) := by
  induction calls with
  | nil => intro seen p hp; simp [runCalls] at hp
  | cons c rest ih =>
    intro seen p hp
    simp only [runCalls, List.zip_cons_cons, List.mem_cons] at hp
    have hseen : (store_detection false dbInit c.2 seen c.1 frame).seen = seen := by
      simp [store_detection]
    rcases hp with hp | hp
    · subst hp
      simp [store_detection]
    · have := ih (store_detection false dbInit c.2 seen c.1 frame).seen p (by rw [hseen] at hp ⊢; exact hp)
      rw [hseen] at this
      exact this

/-- C1: for every detection identity (class_label, track_id), the first
store_detection call for that identity (with saving enabled, the
SAVE_DETECTIONS default) returns true and triggers exactly one image snapshot
write and one label write, and every subsequent call with the same identity,
anywhere in any later sequence of calls, returns false and triggers no
snapshot or label writes. -/
theorem C1_first_new_then_dedup (dbInit : Bool) (o : Oracle) (frame : Frame)
    (seen : List String) (d : Detection) (rest : List (Detection × Oracle))
    (h : objectId d ∉ seen) :
    (store_detection SAVE_DETECTIONS dbInit o seen d frame).isNew = true
  ∧ countImg (store_detection SAVE_DETECTIONS dbInit o seen d frame).effects = 1
  ∧ countLbl (store_detection SAVE_DETECTIONS dbInit o seen d frame).effects = 1
  ∧ ∀ p ∈ rest.zip (runCalls SAVE_DETECTIONS dbInit frame
        (store_detection SAVE_DETECTIONS dbInit o seen d frame).seen rest),
      objectId p.1.1 = objectId d →
        p.2.1 = false ∧ countImg p.2.2 = 0 ∧ countLbl p.2.2 = 0 := by
  have hstore := store_detection_new_save dbInit o seen d frame h
  rw [show SAVE_DETECTIONS = true from rfl] at *
  rw [hstore]
  refine ⟨rfl, ?_, ?_, ?_⟩
  · simp [countImg_append, countImg_fb, countImg_img, countImg_lbl]
  · simp [countLbl_append, countLbl_fb, countLbl_img, countLbl_lbl]
  · intro p hp heq
    exact runCalls_all_false true dbInit frame (objectId d) rest
      (objectId d :: seen) (List.mem_cons_self _ _) p hp heq

/-- C1 witness: identity (metal, 5) starting from an empty seen set, with one
subsequent call for the same identity. -/
theorem C1_first_new_then_dedup_witness :
    (objectId exDet ∉ ([] : List String))
  ∧ ((store_detection SAVE_DETECTIONS true oracleOk [] exDet frame640).isNew = true
  ∧ countImg (store_detection SAVE_DETECTIONS true oracleOk [] exDet frame640).effects = 1
  ∧ countLbl (store_detection SAVE_DETECTIONS true oracleOk [] exDet frame640).effects = 1
  ∧ ∀ p ∈ [(exDet, oracleOk)].zip (runCalls SAVE_DETECTIONS true frame640
        (store_detection SAVE_DETECTIONS true oracleOk [] exDet frame640).seen
        [(exDet, oracleOk)]),
      objectId p.1.1 = objectId exDet →
        p.2.1 = false ∧ countImg p.2.2 = 0 ∧ countLbl p.2.2 = 0) :=
  ⟨by simp, C1_first_new_then_dedup true oracleOk frame640 [] exDet
    [(exDet, oracleOk)] (by simp)⟩

/-- C4: every store_detection call (with Firebase initialized) relays a
class-bucketed increment to the external counter regardless of whether the
identity is new; an unrecognized class is dropped with a warning and never
relayed; a relay failure is logged; a persistence failure (image or label
write, attempted when the identity is new and saving enabled) is logged; and
relay and persistence outcomes never change the returned novelty flag or the
seen set (failures are swallowed, the caller is never aborted). -/
theorem C4_relay_and_swallow (save dbInit : Bool) (o : Oracle) (seen : List String)
    (d : Detection) (frame : Frame) (hdb : dbInit = true) :
    (recognizedWasteTypes.contains (wasteType d) = true →
      Effect.relay (wasteType d) (d.count.getD 1)
        ∈ (store_detection save dbInit o seen d frame).effects)
  ∧ (recognizedWasteTypes.contains (wasteType d) = false →
      Effect.warnUnknown (wasteType d) ∈ (store_detection save dbInit o seen d frame).effects
      ∧ ∀ (wt : String) (n : Nat),
          Effect.relay wt n ∉ (store_detection save dbInit o seen d frame).effects)
  ∧ (recognizedWasteTypes.contains (wasteType d) = true → o.relayOk = false →
      Effect.logMsg "Error updating wasteTypes in Firebase"
        ∈ (store_detection save dbInit o seen d frame).effects)
  ∧ (objectId d ∉ seen → save = true → o.imageOk = false →
      Effect.logMsg "Error saving detection image"
        ∈ (store_detection save dbInit o seen d frame).effects)
  ∧ (objectId d ∉ seen → save = true → o.labelOk = false →
      Effect.logMsg "Error saving detection label"
        ∈ (store_detection save dbInit o seen d frame).effects)
  ∧ (∀ o2 : Oracle,
      (store_detection save dbInit o2 seen d frame).isNew
        = (store_detection save dbInit o seen d frame).isNew
      ∧ (store_detection save dbInit o2 seen d frame).seen
        = (store_detection save dbInit o seen d frame).seen) := by
  subst hdb
  have hcases := store_effects_cases save true o seen d frame
  refine ⟨?_, ?_, ?_, ?_, ?_, fun o2 => store_result_oracle_indep save true o o2 seen d frame⟩
  · intro hrec
    rcases hcases with hc | hc <;> rw [hc]
    · exact relay_mem_fb o d hrec
    · exact List.mem_append_left _ (List.mem_append_left _ (relay_mem_fb o d hrec))
  · intro hrec
    have hnm : wasteType d ∉ recognizedWasteTypes := by
      simpa using hrec
    have hfb : store_to_firebase true o d = [Effect.warnUnknown (wasteType d)] := by
      simp [store_to_firebase, hnm]
    constructor
    · rcases hcases with hc | hc <;> rw [hc, hfb]
      · exact List.mem_singleton_self _
      · exact List.mem_append_left _ (List.mem_append_left _ (List.mem_singleton_self _))
    · intro wt n
      rcases hcases with hc | hc <;> rw [hc, hfb]
      · simp
      · intro hmem
        rcases List.mem_append.mp hmem with hm | hm
        · rcases List.mem_append.mp hm with hm2 | hm2
          · simp at hm2
          · exact relay_not_mem_img o d wt n hm2
        · exact relay_not_mem_lbl o d frame wt n hm
  · intro hrec hro
    have h2 : wasteType d ∈ recognizedWasteTypes := by simpa using hrec
    have hfb : Effect.logMsg "Error updating wasteTypes in Firebase"
        ∈ store_to_firebase true o d := by
      simp [store_to_firebase, h2, hro]
    rcases hcases with hc | hc <;> rw [hc]
    · exact hfb
    · exact List.mem_append_left _ (List.mem_append_left _ hfb)
  · intro hseen hsave himg
    subst hsave
    rw [store_detection_new_save true o seen d frame hseen]
    exact List.mem_append_left _
      (List.mem_append_right _ (by simp [save_detection_image, himg]))
  · intro hseen hsave hlbl
    subst hsave
    rw [store_detection_new_save true o seen d frame hseen]
    exact List.mem_append_right _ (by simp [save_detection_label, hlbl])

/-- C4 witness: a recognized metal detection, unseen identity, Firebase
initialized, with every external call failing, so the relay and both
persistence failure-log conjuncts are exercised non-vacuously. -/
theorem C4_relay_and_swallow_witness :
    (true = true)
  ∧ ((recognizedWasteTypes.contains (wasteType exDet) = true →
      Effect.relay (wasteType exDet) (exDet.count.getD 1)
        ∈ (store_detection true true oracleFail [] exDet frame640).effects)
  ∧ (recognizedWasteTypes.contains (wasteType exDet) = false →
      Effect.warnUnknown (wasteType exDet)
        ∈ (store_detection true true oracleFail [] exDet frame640).effects
      ∧ ∀ (wt : String) (n : Nat),
          Effect.relay wt n ∉ (store_detection true true oracleFail [] exDet frame640).effects)
  ∧ (recognizedWasteTypes.contains (wasteType exDet) = true → oracleFail.relayOk = false →
      Effect.logMsg "Error updating wasteTypes in Firebase"
        ∈ (store_detection true true oracleFail [] exDet frame640).effects)
  ∧ (objectId exDet ∉ ([] : List String) → true = true → oracleFail.imageOk = false →
      Effect.logMsg "Error saving detection image"
        ∈ (store_detection true true oracleFail [] exDet frame640).effects)
  ∧ (objectId exDet ∉ ([] : List String) → true = true → oracleFail.labelOk = false →
      Effect.logMsg "Error saving detection label"
        ∈ (store_detection true true oracleFail [] exDet frame640).effects)
  ∧ (∀ o2 : Oracle,
      (store_detection true true o2 [] exDet frame640).isNew
        = (store_detection true true oracleFail [] exDet frame640).isNew
      ∧ (store_detection true true o2 [] exDet frame640).seen
        = (store_detection true true oracleFail [] exDet frame640).seen)) :=
  ⟨rfl, C4_relay_and_swallow true true oracleFail [] exDet frame640 rfl⟩

/-- C10: when detection saving is disabled (SAVE_DETECTIONS false), the seen
set is never updated, so every call in any sequence whose identity matches an
initially unseen identity returns true — the exactly-once dedup guarantee
holds only when saving is enabled. -/
theorem C10_no_dedup_when_disabled (dbInit : Bool) (frame : Frame)
    (seen : List String) (d : Detection) (h : objectId d ∉ seen) :
    (∀ (o : Oracle) (seen2 : List String) (d2 : Detection),
        (store_detection false dbInit o seen2 d2 frame).seen = seen2)
  ∧ (∀ calls : List (Detection × Oracle),
      ∀ p ∈ calls.zip (runCalls false dbInit frame seen calls),
        objectId p.1.1 = objectId d → p.2.1 = true) := by
  constructor
  · intro o seen2 d2
    simp [store_detection]
  · intro calls p hp heq
    rw [runCalls_disabled_isNew dbInit frame calls seen p hp, heq,
      decide_eq_false h, Bool.not_false]

/-- C10 witness: identity (metal, 5) unseen initially; the disabled-save run
never records it. -/
theorem C10_no_dedup_when_disabled_witness :
    (objectId exDet ∉ ([] : List String))
  ∧ ((∀ (o : Oracle) (seen2 : List String) (d2 : Detection),
        (store_detection false true o seen2 d2 frame640).seen = seen2)
  ∧ (∀ calls : List (Detection × Oracle),
      ∀ p ∈ calls.zip (runCalls false true frame640 [] calls),
        objectId p.1.1 = objectId exDet → p.2.1 = true)) :=
  ⟨by simp, C10_no_dedup_when_disabled true frame640 [] exDet (by simp)⟩

/-- C2: for every sequence of frame publications into the latest-frame cell
followed by a read, the read returns a (defensive copy of a) value equal to
the last published frame; on a freshly initialized stream that has never
published, the read returns none. -/
theorem C2_read_returns_latest (s0 : VSState) (ps : List (Frame × Rat))
    (p : Frame × Rat) (src : String ⊕ Int) :
    vsRead (List.foldl (fun st q => vsPublishFrame st q.1 q.2) s0 (ps ++ [p]))
      = some p.1
  ∧ vsRead (vsInit src) = none := by
  constructor
  · rw [List.foldl_append]
    rfl
  · rfl

/-- C5: for the detection with bbox (10,20,110,220) on a 640x480 frame, the
label written by store_detection carries the normalized values
x_center=0.09375, y_center=0.25, width=0.15625, height=0.41667 (each within
1e-4), computed as x_center=(x1+x2)/2/frame_width and analogously for the
other components. -/
theorem C5_label_normalization :
    save_detection_label oracleOk exDet frame640
      = [Effect.labelWrite (lblFilename exDet) 0 (3/32) (1/4) (5/32) (5/12)]
  ∧ Effect.labelWrite (lblFilename exDet) 0 (3/32) (1/4) (5/32) (5/12)
      ∈ (store_detection SAVE_DETECTIONS true oracleOk [] exDet frame640).effects
  ∧ |(3/32 : Rat) - 9375/100000| ≤ 1/10000
  ∧ |(1/4 : Rat) - 25/100| ≤ 1/10000
  ∧ |(5/32 : Rat) - 15625/100000| ≤ 1/10000
  ∧ |(5/12 : Rat) - 41667/100000| ≤ 1/10000 := by
  have hlbl : save_detection_label oracleOk exDet frame640
      = [Effect.labelWrite (lblFilename exDet) 0 (3/32) (1/4) (5/32) (5/12)] := by
    simp only [save_detection_label, oracleOk, exDet, frame640]
    norm_num
  refine ⟨hlbl, ?_, ?_, ?_, ?_, ?_⟩
  · rw [show SAVE_DETECTIONS = true from rfl,
      store_detection_new_save true oracleOk [] exDet frame640 (by simp), hlbl]
    exact List.mem_append_right _ (List.mem_singleton_self _)
  · exact abs_le.mpr ⟨by norm_num, by norm_num⟩
  · exact abs_le.mpr ⟨by norm_num, by norm_num⟩
  · exact abs_le.mpr ⟨by norm_num, by norm_num⟩
  · exact abs_le.mpr ⟨by norm_num, by norm_num⟩

/-- C7: if no processed frame has ever been published, each viewer iteration
substitutes a well-formed blank placeholder frame (all-zero pixels, three
channels) of the configured default resolution, rather than blocking or
erroring. -/
theorem C7_blank_placeholder :
    generateFramesStep none = blankFrame
  ∧ blankFrame.width = FRAME_WIDTH
  ∧ blankFrame.height = FRAME_HEIGHT
  ∧ blankFrame.channels = 3
  ∧ ∀ i j c : Nat, blankFrame.data i j c = 0 :=
  ⟨rfl, rfl, rfl, rfl, fun _ _ _ => rfl⟩

/-- C9: when the detection model is unavailable (primary and fallback load
both failed, so the detector holds no model), detect_and_track degrades to
passing every frame through unannotated with an empty detection list, rather
than raising. -/
theorem C9_no_model_passthrough (names : Nat → String) (hist : TrackHist)
    (frame : Frame) (now : Rat) :
    detect_and_track (yoloInitModel none none) names hist frame now
      = (frame, [], hist)
  ∧ yoloInitModel none none = (none : Option (Frame → ModelOutput)) :=
  ⟨rfl, rfl⟩

/-- C3: calling start_stream while the stream is active returns the
structured error pair (error, Stream already active) and leaves the state
unchanged (no restart); calling stop_stream while idle returns the structured
error pair (error, No active stream to stop) and leaves the state
unchanged. -/
theorem C3_lifecycle_misuse (sA sI : AppState) (rq : Option String) (openOk : Bool)
    (hA : sA.streamActive = true) (hI : sI.streamActive = false) :
    start_stream sA rq openOk = (⟨"error", "Stream already active"⟩, sA)
  ∧ stop_stream sI = (⟨"error", "No active stream to stop"⟩, sI) := by
  constructor
  · simp [start_stream, hA]
  · simp [stop_stream, hI]

/-- C3 witness: a concrete active state and a concrete idle state. -/
theorem C3_lifecycle_misuse_witness :
    exActive.streamActive = true
  ∧ exIdle.streamActive = false
  ∧ (start_stream exActive none true = (⟨"error", "Stream already active"⟩, exActive)
  ∧ stop_stream exIdle = (⟨"error", "No active stream to stop"⟩, exIdle)) :=
  ⟨rfl, rfl, C3_lifecycle_misuse exActive exIdle none true rfl rfl⟩

/-! ## Track-history lemma for C6 -/

lemma histStep_foldl (cs : List Point) :
    ∀ h : List Point, h.length ≤ 30 →
      List.foldl histStep h cs = (h ++ cs).drop (h.length + cs.length - 30) := by
  induction cs with
  | nil =>
    intro h hh
    simp [Nat.sub_eq_zero_of_le hh]
  | cons c cs ih =>
    intro h hh
    rw [List.foldl_cons]
    have hl2 : (h ++ [c]).length = h.length + 1 := by simp
    by_cases hlen : h.length + 1 ≤ 30
    · have hstep : histStep h c = h ++ [c] := by
        simp only [histStep]
        rw [if_neg (by rw [hl2]; omega)]
      rw [hstep, ih (h ++ [c]) (by rw [hl2]; omega)]
      rw [List.append_assoc, List.singleton_append]
      congr 1
      rw [hl2]
      simp only [List.length_cons]
      omega
    · have h30 : h.length = 30 := by omega
      have hstep : histStep h c = (h ++ [c]).drop 1 := by
        simp only [histStep]
        rw [if_pos (by rw [hl2, h30]; omega)]
      have hdl : ((h ++ [c]).drop 1).length = 30 := by
        rw [List.length_drop, hl2, h30]
      rw [hstep, ih ((h ++ [c]).drop 1) (by rw [hdl])]
      rw [hdl]
      rw [show (h ++ [c]).drop 1 ++ cs = ((h ++ [c]) ++ cs).drop 1 from
        (List.drop_append_of_le_length (by rw [hl2]; omega)).symm]
      rw [List.drop_drop]
      rw [List.append_assoc, List.singleton_append]
      congr 1
      rw [h30]
      simp only [List.length_cons]
      omega

/-- C6: the per-track history update of detect_and_track keeps each stored
history at most 30 center points long; after any sequence of at least 30
updates to one track, the stored history is exactly the 30 most recent center
points in insertion order. -/
theorem C6_track_history_bound (cs : List Point) (hn : 30 ≤ cs.length) :
    (∀ (h : TrackHist) (r : RawDet),
        histUpdate h r r.trackId = histStep (h r.trackId) (rawCenter r))
  ∧ (∀ ds : List Point, (List.foldl histStep [] ds).length ≤ 30)
  ∧ List.foldl histStep [] cs = cs.drop (cs.length - 30)
  ∧ (List.foldl histStep [] cs).length = 30 := by
  have hbase : ∀ ds : List Point,
      List.foldl histStep [] ds = ds.drop (ds.length - 30) := by
    intro ds
    have := histStep_foldl ds [] (by simp)
    simpa using this
  refine ⟨fun h r => by simp [histUpdate], fun ds => ?_, hbase cs, ?_⟩
  · rw [hbase ds, List.length_drop]
    omega
  · rw [hbase cs, List.length_drop]
    omega

/-- C6 witness: 40 updates of one track leave exactly the last 30 points. -/
theorem C6_track_history_bound_witness :
    30 ≤ cs40.length
  ∧ ((∀ (h : TrackHist) (r : RawDet),
        histUpdate h r r.trackId = histStep (h r.trackId) (rawCenter r))
  ∧ (∀ ds : List Point, (List.foldl histStep [] ds).length ≤ 30)
  ∧ List.foldl histStep [] cs40 = cs40.drop (cs40.length - 30)
  ∧ (List.foldl histStep [] cs40).length = 30) :=
  ⟨by decide, C6_track_history_bound cs40 (by decide)⟩

/-! ## Producer-loop lemmas for C8 -/

lemma vsUpdate_stopped (s : VSState) (lc : Rat) (l : List (Option Frame × Rat))
    (h : s.stopped = true) : vsUpdate s lc l = (s, lc) := by
  cases l with
  | nil => rfl
  | cons a rest =>
    obtain ⟨r, t⟩ := a
    simp [vsUpdate, h]

lemma vsUpdate_append (l1 : List (Option Frame × Rat)) :
    ∀ (s : VSState) (lc : Rat) (l2 : List (Option Frame × Rat)),
      vsUpdate s lc (l1 ++ l2)
        = vsUpdate (vsUpdate s lc l1).1 (vsUpdate s lc l1).2 l2 := by
  induction l1 with
  | nil => intro s lc l2; rfl
  | cons a rest ih =>
    intro s lc l2
    obtain ⟨r, t⟩ := a
    by_cases hs : s.stopped = true
    · rw [List.cons_append]
      rw [vsUpdate_stopped s lc ((r, t) :: (rest ++ l2)) hs,
        vsUpdate_stopped s lc ((r, t) :: rest) hs]
      exact (vsUpdate_stopped s lc l2 hs).symm
    · cases r with
      | none =>
        rw [List.cons_append]
        show vsUpdate s lc ((none, t) :: (rest ++ l2)) = _
        rw [show vsUpdate s lc ((none, t) :: (rest ++ l2))
            = ({ s with stopped := true }, lc) by simp [vsUpdate, hs]]
        rw [show vsUpdate s lc ((none, t) :: rest)
            = ({ s with stopped := true }, lc) by simp [vsUpdate, hs]]
        exact (vsUpdate_stopped _ _ _ rfl).symm
      | some f =>
        rw [List.cons_append]
        by_cases hq : 1 ≤ t - lc
        · have hone : ∀ l : List (Option Frame × Rat),
              vsUpdate s lc ((some f, t) :: l)
                = vsUpdate (vsPublishFrame { { s with frameCount := s.frameCount + 1 } with
                    actualFps := (({ s with frameCount := s.frameCount + 1 } : VSState).frameCount : Rat) / (t - lc),
                    frameCount := 0 } f t) t l :=
            fun l => by simp [vsUpdate, hs, hq]
          simp only [hone]
          exact ih _ _ _
        · have hone : ∀ l : List (Option Frame × Rat),
              vsUpdate s lc ((some f, t) :: l)
                = vsUpdate (vsPublishFrame { s with frameCount := s.frameCount + 1 } f t) lc l :=
            fun l => by simp [vsUpdate, hs, hq]
          simp only [hone]
          exact ih _ _ _

/-- C8: if opening the capture source fails, VideoStream.start raises the
source-unavailable error and no producer loop is started (thread flag, stop
flag and frame slot unchanged); while the producer loop is running, a single
acquisition failure immediately sets the stopped flag and exits the loop,
ignoring all subsequent reads (no retry). -/
theorem C8_open_failure_and_terminal_acquisition (s : VSState) (lc : Rat)
    (goods : List (Option Frame × Rat)) (t : Rat)
    (rest : List (Option Frame × Rat))
    (hrun : (vsUpdate s lc goods).1.stopped = false) :
    (∀ s0 : VSState, ∃ s1 : VSState,
        vsStart false s0 = Except.error ("Could not open video source", s1)
      ∧ s1.threadStarted = s0.threadStarted
      ∧ s1.stopped = s0.stopped
      ∧ s1.frame = s0.frame)
  ∧ (vsUpdate s lc (goods ++ (none, t) :: rest)).1
      = { (vsUpdate s lc goods).1 with stopped := true } := by
  constructor
  · intro s0
    exact ⟨_, rfl, rfl, rfl, rfl⟩
  · rw [vsUpdate_append]
    have hstep : vsUpdate (vsUpdate s lc goods).1 (vsUpdate s lc goods).2
        ((none, t) :: rest)
        = ({ (vsUpdate s lc goods).1 with stopped := true },
           (vsUpdate s lc goods).2) := by
      simp [vsUpdate, hrun]
    rw [hstep]

/-- C8 witness: a freshly started stream whose very first read fails. -/
theorem C8_open_failure_and_terminal_acquisition_witness :
    (vsUpdate exVS 0 []).1.stopped = false
  ∧ ((∀ s0 : VSState, ∃ s1 : VSState,
        vsStart false s0 = Except.error ("Could not open video source", s1)
      ∧ s1.threadStarted = s0.threadStarted
      ∧ s1.stopped = s0.stopped
      ∧ s1.frame = s0.frame)
  ∧ (vsUpdate exVS 0 ([] ++ (none, 0) :: [])).1
      = { (vsUpdate exVS 0 []).1 with stopped := true }) :=
  ⟨rfl, C8_open_failure_and_terminal_acquisition exVS 0 [] 0 [] rfl⟩
